import Mathlib

/-!
Shallow embedding of the visual-chat simulation playback engine
(component VisualChatSimulationPage): the sequence data model, the
playback event handlers, the pass/fail judgment and the end-session
flow, translated from the React component's state handlers into
explicit state-passing functions.

React `useState` fields become fields of `SimState`; every `setX` call
in a handler becomes a record update applied in program order; each
`setTimeout(cb, d)` becomes a pending `TimerCallback` (recording the
delay in milliseconds) appended to `pendingTimers`, fired later by an
explicit `fireTimer` event; the once-per-second interval becomes the
`tick` event; the async end-of-session call is split into its
synchronous prefix (`endChatStartFn`, which also reports whether the
gateway call is issued) and its continuation (`endChatResolveFn`,
taking the response or `none` for a failed call).
-/

/-- Scores of the EndChatResponse payload: the six metrics returned by
the end-of-session scorer. -/
structure EndScores where
  simAccuracy : ℚ
  keywordScore : ℚ
  clickScore : ℚ
  confidence : ℚ
  energy : ℚ
  concentration : ℚ
deriving DecidableEq

/-- EndChatResponse: scores plus the reported duration (the component
falls back to its own elapsed time when the reported duration is 0,
mirroring the truthiness test on the payload field). -/
structure EndChatResponse where
  scores : EndScores
  duration : ℚ
deriving DecidableEq

/-- A chat message shown in the side panel (role is the literal string
the component stores: "customer" or "trainee"). -/
structure ChatMessage where
  role : String
  text : String
deriving DecidableEq

/-- One entry of a slide's sequence array. Only the fields the engine
logic reads are kept; `settings.timeoutDuration` and
`settings.advanceOnSelect` are lifted to optional fields. -/
structure SequenceItem where
  type : String
  hotspotType : Option String
  role : Option String
  text : Option String
  timeoutDuration : Option ℚ
  advanceOnSelect : Option Bool
  options : Option (List String)
deriving DecidableEq

/-- A slide: an image reference plus its ordered sequence of items. -/
structure Slide where
  imageId : String
  sequence : List SequenceItem
deriving DecidableEq

/-- A scheduled setTimeout callback of the component, tagged by which
handler scheduled it; `hotspotTimeoutAdvance` carries its delay in
milliseconds (the source schedules it with `timeout * 1000`). -/
inductive TimerCallback where
  | checkboxAdvance : TimerCallback
  | customerMsgAdvance : TimerCallback
  | hotspotTimeoutAdvance : ℚ → TimerCallback
  | dropdownAdvance : TimerCallback
  | submitAdvance : TimerCallback
deriving DecidableEq

/-- Delay in milliseconds each callback kind is scheduled with in the
source: 800 for the checkbox and customer-message advances, 500 for the
dropdown-selection and message-submit advances, and the configured
timeout times 1000 for the hotspot timeout. -/
def scheduledDelayMs : TimerCallback → ℚ
  | TimerCallback.checkboxAdvance => 800
  | TimerCallback.customerMsgAdvance => 800
  | TimerCallback.hotspotTimeoutAdvance d => d
  | TimerCallback.dropdownAdvance => 500
  | TimerCallback.submitAdvance => 500

/-- The component's state: one field per `useState` hook the engine
logic reads or writes, plus `timerRunning` for the interval held in
`timerRef` and `pendingTimers` for outstanding setTimeout callbacks. -/
structure SimState where
  userId : String
  isStarted : Bool
  isEndingChat : Bool
  simulationProgressId : Option String
  showCompletionScreen : Bool
  scores : Option EndScores
  duration : ℚ
  elapsedTime : Nat
  isPaused : Bool
  slidesData : List Slide
  currentSlideIndex : Nat
  currentSequenceIndex : Nat
  imageLoaded : Bool
  isProcessing : Bool
  highlightHotspot : Bool
  dropdownOpen : Bool
  dropdownValue : String
  checkboxChecked : Bool
  textInputValue : String
  showCoachingTip : Bool
  userInput : String
  waitingForUserInput : Bool
  expectedTraineeResponse : String
  currentMessage : Option ChatMessage
  timerRunning : Bool
  pendingTimers : List TimerCallback
deriving DecidableEq

/-- MIN_PASSING_SCORE: the fixed pass threshold constant. -/
def MIN_PASSING_SCORE : ℚ := 85

/-- isPassed: `scores ? scores[Sim Accuracy] >= MIN_PASSING_SCORE : false`. -/
def isPassed (scores : Option EndScores) : Bool :=
  match scores with
  | some sc => decide (sc.simAccuracy ≥ MIN_PASSING_SCORE)
  | none => false

/-- currentSequence: `slidesData[currentSlideIndex]` (or `{}`) then its
`sequence` array (or `[]`). -/
def currentSequence (s : SimState) : List SequenceItem :=
  match s.slidesData[s.currentSlideIndex]? with
  | some sl => sl.sequence
  | none => []

/-- currentItem: `currentSequence[currentSequenceIndex]` (possibly
undefined). -/
def currentItem (s : SimState) : Option SequenceItem :=
  (currentSequence s)[s.currentSequenceIndex]?

/-- `currentItem.hotspotType || "button"`: a missing or empty (falsy)
hotspot type defaults to "button". -/
def hotspotTypeOf (item : SequenceItem) : String :=
  match item.hotspotType with
  | none => "button"
  | some ht => if ht = "" then "button" else ht

/-- The item-entry effect's reset half: the per-item transient UI flags
that are cleared whenever the current indices change. -/
def resetFlags (s : SimState) : SimState :=
  { s with dropdownOpen := false, dropdownValue := "", checkboxChecked := false,
           textInputValue := "", showCoachingTip := false, highlightHotspot := false,
           waitingForUserInput := false, expectedTraineeResponse := "" }

/-- The item-entry effect's second half: a coaching-tip hotspot is
revealed immediately on entry. -/
def revealCoachingTip (s : SimState) : SimState :=
  match currentItem s with
  | some item =>
      if item.type = "hotspot" ∧
         (item.hotspotType = some "coaching" ∨ item.hotspotType = some "coachingtip") then
        { s with showCoachingTip := true }
      else s
  | none => s

/-- The full item-entry effect run after the current indices change. -/
def itemEntryReset (s : SimState) : SimState :=
  revealCoachingTip (resetFlags s)

/-- moveToNextItem: next item in the current slide if any, else first
item of the next slide if any, else end of slideshow (clear the
highlight and stay put). Index changes trigger the item-entry effect. -/
def moveToNextItem (s : SimState) : SimState :=
  if s.currentSequenceIndex < (currentSequence s).length - 1 then
    itemEntryReset { s with currentSequenceIndex := s.currentSequenceIndex + 1 }
  else if s.currentSlideIndex < s.slidesData.length - 1 then
    itemEntryReset { s with currentSlideIndex := s.currentSlideIndex + 1,
                            currentSequenceIndex := 0, imageLoaded := false }
  else
    { s with highlightHotspot := false }

/-- handleHotspotClick: guarded on started, current item being a
hotspot, not processing and not paused; then dispatches on the hotspot
type. The checkbox branch marks the box checked and schedules an
advance after 800 ms without setting any processing guard. -/
def handleHotspotClick (s : SimState) : SimState :=
  match currentItem s with
  | none => s
  | some item =>
    if s.isStarted = false ∨ item.type ≠ "hotspot" ∨ s.isProcessing = true ∨ s.isPaused = true then
      s
    else if hotspotTypeOf item = "button" ∨ hotspotTypeOf item = "highlight" then
      moveToNextItem { s with highlightHotspot := false }
    else if hotspotTypeOf item = "dropdown" then
      { s with dropdownOpen := !s.dropdownOpen }
    else if hotspotTypeOf item = "checkbox" then
      { s with checkboxChecked := true,
               pendingTimers := s.pendingTimers ++ [TimerCallback.checkboxAdvance] }
    else if hotspotTypeOf item = "coaching" ∨ hotspotTypeOf item = "coachingtip" then
      moveToNextItem { s with showCoachingTip := false }
    else s

/-- handleDropdownSelect: record the chosen option, close the dropdown,
and schedule an advance (after 500 ms) only when the current item's
`settings.advanceOnSelect` is truthy. -/
def handleDropdownSelect (option : String) (s : SimState) : SimState :=
  if (match currentItem s with
      | some item => item.advanceOnSelect.getD false
      | none => false) = true then
    { s with dropdownValue := option, dropdownOpen := false,
             pendingTimers := s.pendingTimers ++ [TimerCallback.dropdownAdvance] }
  else
    { s with dropdownValue := option, dropdownOpen := false }

/-- Structural model of JavaScript String.prototype.trim: drop leading
and trailing whitespace characters. -/
def trimString (s : String) : String :=
  String.mk (((s.data.dropWhile Char.isWhitespace).reverse.dropWhile Char.isWhitespace).reverse)

/-- handleSubmitMessage: dropped when the trimmed input is empty or the
engine is not waiting for input; otherwise shows the trainee message,
clears the input and waiting state, and schedules the advance. -/
def handleSubmitMessage (s : SimState) : SimState :=
  if trimString s.userInput = "" ∨ s.waitingForUserInput = false then s
  else
    { s with currentMessage := some { role := "trainee", text := s.userInput },
             userInput := "", waitingForUserInput := false, expectedTraineeResponse := "",
             pendingTimers := s.pendingTimers ++ [TimerCallback.submitAdvance] }

/-- handleTextInputSubmit: the Enter keydown of a textfield hotspot
advances unconditionally. -/
def handleTextInputSubmit (s : SimState) : SimState :=
  moveToNextItem s

/-- The process-current-item effect: guarded on a current item being
present, not processing, image loaded, not paused and started. Customer
messages display and schedule an 800 ms auto-advance (leaving the
processing guard up until it fires); trainee messages enter the
awaiting-input state; hotspots are highlighted, and a configured
positive timeout schedules an auto-advance after `timeout * 1000` ms
except for the button, dropdown and checkbox kinds, which wait. -/
def processItem (s : SimState) : SimState :=
  match currentItem s with
  | none => s
  | some item =>
    if s.isProcessing = true ∨ s.imageLoaded = false ∨ s.isPaused = true ∨ s.isStarted = false then
      s
    else if item.type = "message" then
      if item.role = some "Customer" ∨ item.role = some "customer" then
        { s with isProcessing := true,
                 currentMessage := some { role := "customer", text := item.text.getD "" },
                 pendingTimers := s.pendingTimers ++ [TimerCallback.customerMsgAdvance] }
      else
        { s with isProcessing := false, waitingForUserInput := true,
                 expectedTraineeResponse := item.text.getD "" }
    else if item.type = "hotspot" then
      match item.timeoutDuration with
      | some t =>
        if 0 < t ∧ hotspotTypeOf item ≠ "button" ∧ hotspotTypeOf item ≠ "dropdown" ∧
           hotspotTypeOf item ≠ "checkbox" then
          { s with isProcessing := true, highlightHotspot := true,
                   pendingTimers := s.pendingTimers ++ [TimerCallback.hotspotTimeoutAdvance (t * 1000)] }
        else
          { s with isProcessing := false, highlightHotspot := true }
      | none => { s with isProcessing := false, highlightHotspot := true }
    else
      { s with isProcessing := false }

/-- Body of each scheduled setTimeout callback, in the order the source
writes its statements. -/
def fireCallback (cb : TimerCallback) (s : SimState) : SimState :=
  match cb with
  | TimerCallback.checkboxAdvance => { moveToNextItem s with checkboxChecked := false }
  | TimerCallback.customerMsgAdvance => { moveToNextItem s with isProcessing := false }
  | TimerCallback.hotspotTimeoutAdvance _ =>
      { moveToNextItem s with highlightHotspot := false, isProcessing := false }
  | TimerCallback.dropdownAdvance => moveToNextItem s
  | TimerCallback.submitAdvance => moveToNextItem s

/-- Fire the oldest outstanding setTimeout callback, if any. -/
def fireTimer (s : SimState) : SimState :=
  match s.pendingTimers with
  | [] => s
  | cb :: rest => fireCallback cb { s with pendingTimers := rest }

/-- One interval tick: the callback increments the elapsed seconds only
when the interval is alive and the session is started and not paused. -/
def tickFn (s : SimState) : SimState :=
  if s.timerRunning = true ∧ s.isPaused = false ∧ s.isStarted = true then
    { s with elapsedTime := s.elapsedTime + 1 }
  else s

/-- togglePause: flip the paused flag. -/
def togglePauseFn (s : SimState) : SimState :=
  { s with isPaused := !s.isPaused }

/-- The synchronous prefix of handleEndChat, up to the await of the end
gateway call. Returns the state plus whether the gateway call is
issued. The duplicate-call and missing-user guards return before any
mutation; otherwise the timer is stopped and the started flag cleared
before the missing-progress-id check, whose early return only resets
the ending flag. -/
def endChatStartFn (s : SimState) : SimState × Bool :=
  if s.isEndingChat = true then (s, false)
  else if s.userId = "" then (s, false)
  else
    match s.simulationProgressId with
    | none => ({ s with isStarted := false, timerRunning := false, isEndingChat := false }, false)
    | some _ => ({ s with isStarted := false, timerRunning := false, isEndingChat := true }, true)

/-- The continuation of handleEndChat once the gateway call settles:
on a response carrying scores, store them, set the duration (falling
back to the elapsed time when the reported duration is 0) and show the
completion screen; a failed call only logs. Either way the finally
block resets the ending flag. -/
def endChatResolveFn (resp : Option EndChatResponse) (s : SimState) : SimState :=
  match resp with
  | some r =>
      { s with scores := some r.scores,
               duration := if r.duration = 0 then (s.elapsedTime : ℚ) else r.duration,
               showCompletionScreen := true,
               isEndingChat := false }
  | none => { s with isEndingChat := false }

/-- handleRestartSim: the explicit restart, resetting the listed fields
including both current indices. -/
def handleRestartSim (s : SimState) : SimState :=
  { s with showCompletionScreen := false, isStarted := false, elapsedTime := 0,
           scores := none, currentSlideIndex := 0, currentSequenceIndex := 0,
           imageLoaded := false, currentMessage := none }

/-- The events the component's event loop processes: interval ticks,
trainee interactions, effect runs, setTimeout firings, the two halves
of the end-of-session flow, the timer effect re-arming its interval,
and the explicit restart. -/
inductive Event where
  | tick : Event
  | togglePause : Event
  | hotspotClick : Event
  | dropdownSelect : String → Event
  | submitMessage : Event
  | textFieldEnter : Event
  | userInputChanged : String → Event
  | processCurrent : Event
  | fireTimer : Event
  | endChatStart : Event
  | endChatResolve : Option EndChatResponse → Event
  | rearmTimer : Event
  | restart : Event
deriving DecidableEq

/-- The single event step of the engine. -/
def step : Event → SimState → SimState
  | Event.tick, s => tickFn s
  | Event.togglePause, s => togglePauseFn s
  | Event.hotspotClick, s => handleHotspotClick s
  | Event.dropdownSelect opt, s => handleDropdownSelect opt s
  | Event.submitMessage, s => handleSubmitMessage s
  | Event.textFieldEnter, s => handleTextInputSubmit s
  | Event.userInputChanged t, s => { s with userInput := t }
  | Event.processCurrent, s => processItem s
  | Event.fireTimer, s => fireTimer s
  | Event.endChatStart, s => (endChatStartFn s).1
  | Event.endChatResolve r, s => endChatResolveFn r s
  | Event.rearmTimer, s => { s with timerRunning := true }
  | Event.restart, s => handleRestartSim s

/-- Apply a list of events in arrival order. -/
def applyEvents (evs : List Event) (s : SimState) : SimState :=
  match evs with
  | [] => s
  | e :: rest => applyEvents rest (step e s)

/-- The current position pair (slide index, item index). -/
def pos (s : SimState) : Nat × Nat :=
  (s.currentSlideIndex, s.currentSequenceIndex)

/-- Lexicographic order on position pairs. -/
def posLe (p q : Nat × Nat) : Prop :=
  p.1 < q.1 ∨ (p.1 = q.1 ∧ p.2 ≤ q.2)

/-- Whether a tick of the interval callback increments the elapsed
seconds in the given state. -/
def tickCounts (s : SimState) : Bool :=
  s.timerRunning && (!s.isPaused && s.isStarted)

/-- Number of ticks of a trace that land while the clock is counting
(interval alive, started, not paused), evaluated along the run. -/
def playingTicks : List Event → SimState → Nat
  | [], _ => 0
  | e :: rest, s =>
      (if e = Event.tick ∧ tickCounts s = true then 1 else 0) + playingTicks rest (step e s)

/-! Concrete example data used by witnesses and counterexamples. -/

/-- A checkbox hotspot with no timeout configured. -/
def checkboxItem : SequenceItem :=
  { type := "hotspot", hotspotType := some "checkbox", role := none, text := none,
    timeoutDuration := none, advanceOnSelect := none, options := none }

/-- A plain button hotspot. -/
def buttonItem : SequenceItem :=
  { type := "hotspot", hotspotType := some "button", role := none, text := none,
    timeoutDuration := none, advanceOnSelect := none, options := none }

/-- A button hotspot with a 5-second timeout configured. -/
def buttonTimeoutItem : SequenceItem :=
  { type := "hotspot", hotspotType := some "button", role := none, text := none,
    timeoutDuration := some 5, advanceOnSelect := none, options := none }

/-- A textfield hotspot with a 5-second timeout configured. -/
def textfieldTimeoutItem : SequenceItem :=
  { type := "hotspot", hotspotType := some "textfield", role := none, text := none,
    timeoutDuration := some 5, advanceOnSelect := none, options := none }

/-- A dropdown hotspot with advanceOnSelect disabled. -/
def dropdownNoAdvItem : SequenceItem :=
  { type := "hotspot", hotspotType := some "dropdown", role := none, text := none,
    timeoutDuration := none, advanceOnSelect := some false, options := some ["A", "B"] }

/-- A dropdown hotspot with advanceOnSelect enabled. -/
def dropdownAdvItem : SequenceItem :=
  { type := "hotspot", hotspotType := some "dropdown", role := none, text := none,
    timeoutDuration := none, advanceOnSelect := some true, options := some ["A", "B"] }

/-- A customer-authored message item. -/
def customerMsgItem : SequenceItem :=
  { type := "message", hotspotType := none, role := some "Customer", text := some "Hi",
    timeoutDuration := none, advanceOnSelect := none, options := none }

/-- A trainee-authored message item. -/
def traineeMsgItem : SequenceItem :=
  { type := "message", hotspotType := none, role := some "Trainee", text := some "Hello there",
    timeoutDuration := none, advanceOnSelect := none, options := none }

/-- A started, playing session at item (0, 0) of a single slide whose
sequence is a checkbox followed by two buttons. -/
def baseState : SimState :=
  { userId := "user-1", isStarted := true, isEndingChat := false,
    simulationProgressId := some "progress-1", showCompletionScreen := false,
    scores := none, duration := 0, elapsedTime := 0, isPaused := false,
    slidesData := [{ imageId := "img-1", sequence := [checkboxItem, buttonItem, buttonItem] }],
    currentSlideIndex := 0, currentSequenceIndex := 0, imageLoaded := true,
    isProcessing := false, highlightHotspot := false, dropdownOpen := false,
    dropdownValue := "", checkboxChecked := false, textInputValue := "",
    showCoachingTip := false, userInput := "", waitingForUserInput := false,
    expectedTraineeResponse := "", currentMessage := none, timerRunning := true,
    pendingTimers := [] }

/-- A started session on a slide holding a customer message then a
trainee message, positioned at the customer message. -/
def customerMsgState : SimState :=
  { baseState with
    slidesData := [{ imageId := "img-1", sequence := [customerMsgItem, traineeMsgItem] }] }

/-- The same slide, positioned at the trainee message and awaiting
trainee input, with a non-empty draft in the input box. -/
def traineeWaitingState : SimState :=
  { customerMsgState with currentSequenceIndex := 1, waitingForUserInput := true,
                          userInput := "Hello" }

/-- A started session whose current item is a dropdown with
advanceOnSelect disabled (a second button item follows). -/
def dropdownNoAdvState : SimState :=
  { baseState with
    slidesData := [{ imageId := "img-1", sequence := [dropdownNoAdvItem, buttonItem] }] }

/-- A started session whose current item is a dropdown with
advanceOnSelect enabled. -/
def dropdownAdvState : SimState :=
  { baseState with
    slidesData := [{ imageId := "img-1", sequence := [dropdownAdvItem, buttonItem] }] }

/-- A started session whose current item is a textfield hotspot with a
5-second timeout. -/
def textfieldTimeoutState : SimState :=
  { baseState with
    slidesData := [{ imageId := "img-1", sequence := [textfieldTimeoutItem, buttonItem] }] }

/-- A started session whose current item is a button hotspot with a
5-second timeout. -/
def buttonTimeoutState : SimState :=
  { baseState with
    slidesData := [{ imageId := "img-1", sequence := [buttonTimeoutItem, buttonItem] }] }

/-- A started session that never obtained a session-progress id. -/
def noProgressState : SimState :=
  { baseState with simulationProgressId := none }

/-- A completed-scorer payload with Sim Accuracy exactly at the
threshold. -/
def scoresAt85 : EndScores :=
  { simAccuracy := 85, keywordScore := 70, clickScore := 90, confidence := 60,
    energy := 50, concentration := 40 }

/-- A completed-scorer payload with Sim Accuracy just below the
threshold. -/
def scoresJustBelow : EndScores :=
  { simAccuracy := 84999/1000, keywordScore := 100, clickScore := 100, confidence := 100,
    energy := 100, concentration := 100 }

/-! Helper lemmas: the position pair under each handler, and the
elapsed-seconds field under each handler. -/

theorem posLe_refl (p : Nat × Nat) : posLe p p :=
  Or.inr ⟨rfl, Nat.le_refl _⟩

theorem posLe_of_eq {p q : Nat × Nat} (h : p = q) : posLe p q :=
  h ▸ posLe_refl p

theorem posLe_trans {p q r : Nat × Nat} (h1 : posLe p q) (h2 : posLe q r) : posLe p r := by
  rcases h1 with h1 | ⟨e1, l1⟩ <;> rcases h2 with h2 | ⟨e2, l2⟩
  · exact Or.inl (Nat.lt_trans h1 h2)
  · exact Or.inl (e2 ▸ h1)
  · exact Or.inl (e1 ▸ h2)
  · exact Or.inr ⟨e1.trans e2, Nat.le_trans l1 l2⟩

theorem pos_resetFlags (s : SimState) : pos (resetFlags s) = pos s := rfl

theorem pos_revealCoachingTip (s : SimState) : pos (revealCoachingTip s) = pos s := by
  unfold revealCoachingTip
  repeat' split
  all_goals rfl

theorem pos_itemEntryReset (s : SimState) : pos (itemEntryReset s) = pos s := by
  unfold itemEntryReset
  rw [pos_revealCoachingTip, pos_resetFlags]

theorem pos_moveToNextItem (s : SimState) : posLe (pos s) (pos (moveToNextItem s)) := by
  unfold moveToNextItem
  split
  · rw [pos_itemEntryReset]
    exact Or.inr ⟨rfl, Nat.le_succ _⟩
  · split
    · rw [pos_itemEntryReset]
      exact Or.inl (Nat.lt_succ_self _)
    · exact posLe_refl _

theorem pos_fireCallback (cb : TimerCallback) (s : SimState) :
    posLe (pos s) (pos (fireCallback cb s)) := by
  cases cb <;> exact pos_moveToNextItem _

theorem pos_fireTimer (s : SimState) : posLe (pos s) (pos (fireTimer s)) := by
  unfold fireTimer
  split
  · exact posLe_refl _
  · refine posLe_trans ?_ (pos_fireCallback _ _)
    exact posLe_of_eq rfl

theorem pos_handleHotspotClick (s : SimState) : posLe (pos s) (pos (handleHotspotClick s)) := by
  unfold handleHotspotClick
  repeat' split
  all_goals first
    | exact posLe_refl _
    | (refine posLe_trans ?_ (pos_moveToNextItem _); exact posLe_of_eq rfl)

theorem pos_processItem (s : SimState) : pos (processItem s) = pos s := by
  unfold processItem
  repeat' split
  all_goals rfl

theorem pos_handleDropdownSelect (o : String) (s : SimState) :
    pos (handleDropdownSelect o s) = pos s := by
  unfold handleDropdownSelect
  split <;> rfl

theorem pos_handleSubmitMessage (s : SimState) : pos (handleSubmitMessage s) = pos s := by
  unfold handleSubmitMessage
  split <;> rfl

theorem pos_tickFn (s : SimState) : pos (tickFn s) = pos s := by
  unfold tickFn
  split <;> rfl

theorem pos_endChatStartFn (s : SimState) : pos (endChatStartFn s).1 = pos s := by
  unfold endChatStartFn
  repeat' split
  all_goals rfl

theorem pos_endChatResolveFn (r : Option EndChatResponse) (s : SimState) :
    pos (endChatResolveFn r s) = pos s := by
  cases r <;> rfl

theorem pos_step (e : Event) (s : SimState) (h : e ≠ Event.restart) :
    posLe (pos s) (pos (step e s)) := by
  cases e with
  | tick => exact posLe_of_eq (pos_tickFn s).symm
  | togglePause => exact posLe_refl _
  | hotspotClick => exact pos_handleHotspotClick s
  | dropdownSelect o => exact posLe_of_eq (pos_handleDropdownSelect o s).symm
  | submitMessage => exact posLe_of_eq (pos_handleSubmitMessage s).symm
  | textFieldEnter => exact pos_moveToNextItem s
  | userInputChanged t => exact posLe_refl _
  | processCurrent => exact posLe_of_eq (pos_processItem s).symm
  | fireTimer => exact pos_fireTimer s
  | endChatStart => exact posLe_of_eq (pos_endChatStartFn s).symm
  | endChatResolve r => exact posLe_of_eq (pos_endChatResolveFn r s).symm
  | rearmTimer => exact posLe_refl _
  | restart => exact absurd rfl h

theorem pos_applyEvents (evs : List Event) :
    ∀ s : SimState, (∀ e ∈ evs, e ≠ Event.restart) →
      posLe (pos s) (pos (applyEvents evs s)) := by
  induction evs with
  | nil => intro s _; exact posLe_refl _
  | cons e rest ih =>
      intro s h
      exact posLe_trans (pos_step e s (h e (List.mem_cons_self _ _)))
        (ih (step e s) fun e2 hm => h e2 (List.mem_cons_of_mem _ hm))

theorem elapsed_resetFlags (s : SimState) : (resetFlags s).elapsedTime = s.elapsedTime := rfl

theorem elapsed_revealCoachingTip (s : SimState) :
    (revealCoachingTip s).elapsedTime = s.elapsedTime := by
  unfold revealCoachingTip
  repeat' split
  all_goals rfl

theorem elapsed_itemEntryReset (s : SimState) :
    (itemEntryReset s).elapsedTime = s.elapsedTime := by
  unfold itemEntryReset
  rw [elapsed_revealCoachingTip, elapsed_resetFlags]

theorem elapsed_moveToNextItem (s : SimState) :
    (moveToNextItem s).elapsedTime = s.elapsedTime := by
  unfold moveToNextItem
  split
  · rw [elapsed_itemEntryReset]
  · split
    · rw [elapsed_itemEntryReset]
    · rfl

theorem elapsed_fireCallback (cb : TimerCallback) (s : SimState) :
    (fireCallback cb s).elapsedTime = s.elapsedTime := by
  cases cb <;> exact elapsed_moveToNextItem _

theorem elapsed_fireTimer (s : SimState) : (fireTimer s).elapsedTime = s.elapsedTime := by
  unfold fireTimer
  split
  · rfl
  · exact (elapsed_fireCallback _ _).trans rfl

theorem elapsed_handleHotspotClick (s : SimState) :
    (handleHotspotClick s).elapsedTime = s.elapsedTime := by
  unfold handleHotspotClick
  repeat' split
  all_goals first | rfl | exact (elapsed_moveToNextItem _).trans rfl

theorem elapsed_processItem (s : SimState) : (processItem s).elapsedTime = s.elapsedTime := by
  unfold processItem
  repeat' split
  all_goals rfl

theorem elapsed_handleDropdownSelect (o : String) (s : SimState) :
    (handleDropdownSelect o s).elapsedTime = s.elapsedTime := by
  unfold handleDropdownSelect
  split <;> rfl

theorem elapsed_handleSubmitMessage (s : SimState) :
    (handleSubmitMessage s).elapsedTime = s.elapsedTime := by
  unfold handleSubmitMessage
  split <;> rfl

theorem elapsed_endChatStartFn (s : SimState) :
    (endChatStartFn s).1.elapsedTime = s.elapsedTime := by
  unfold endChatStartFn
  repeat' split
  all_goals rfl

theorem elapsed_endChatResolveFn (r : Option EndChatResponse) (s : SimState) :
    (endChatResolveFn r s).elapsedTime = s.elapsedTime := by
  cases r <;> rfl

theorem elapsed_tickFn (s : SimState) :
    (tickFn s).elapsedTime = s.elapsedTime + (if tickCounts s = true then 1 else 0) := by
  unfold tickFn tickCounts
  rcases hb : s.timerRunning with _ | _ <;> rcases hp : s.isPaused with _ | _ <;>
    rcases hst : s.isStarted with _ | _ <;> simp [hb, hp, hst]

theorem elapsed_step (e : Event) (s : SimState) (h : e ≠ Event.restart) :
    (step e s).elapsedTime =
      s.elapsedTime + (if e = Event.tick ∧ tickCounts s = true then 1 else 0) := by
  cases e with
  | tick => simpa using elapsed_tickFn s
  | togglePause => simp [step, togglePauseFn]
  | hotspotClick => simp [step, elapsed_handleHotspotClick]
  | dropdownSelect o => simp [step, elapsed_handleDropdownSelect]
  | submitMessage => simp [step, elapsed_handleSubmitMessage]
  | textFieldEnter => simp [step, handleTextInputSubmit, elapsed_moveToNextItem]
  | userInputChanged t => simp [step]
  | processCurrent => simp [step, elapsed_processItem]
  | fireTimer => simp [step, elapsed_fireTimer]
  | endChatStart => simp [step, elapsed_endChatStartFn]
  | endChatResolve r => simp [step, elapsed_endChatResolveFn]
  | rearmTimer => simp [step]
  | restart => exact absurd rfl h

theorem elapsed_applyEvents (evs : List Event) :
    ∀ s : SimState, (∀ e ∈ evs, e ≠ Event.restart) →
      (applyEvents evs s).elapsedTime = s.elapsedTime + playingTicks evs s := by
  induction evs with
  | nil => intro s _; rfl
  | cons e rest ih =>
      intro s h
      have he : e ≠ Event.restart := h e (List.mem_cons_self _ _)
      have hr : ∀ e2 ∈ rest, e2 ≠ Event.restart := fun e2 hm => h e2 (List.mem_cons_of_mem _ hm)
      show (applyEvents rest (step e s)).elapsedTime = _
      rw [ih (step e s) hr, elapsed_step e s he, Nat.add_assoc]
      rfl

/-! Claim theorems. -/

/-- C1: a session result is judged passed exactly when its Sim Accuracy
score reaches the fixed threshold 85, for every value of the other
metrics; in particular a Sim Accuracy of exactly 85 yields passed and
84.999 yields failed. -/
theorem passed_iff_sim_accuracy_at_least_85 (sc : EndScores) :
    (isPassed (some sc) = true ↔ sc.simAccuracy ≥ 85) ∧
    (sc.simAccuracy = 85 → isPassed (some sc) = true) ∧
    (sc.simAccuracy = 84999/1000 → isPassed (some sc) = false) := by
  refine ⟨?_, ?_, ?_⟩
  · simp [isPassed, MIN_PASSING_SCORE]
  · intro h
    simp [isPassed, MIN_PASSING_SCORE, h]
  · intro h
    simp only [isPassed, MIN_PASSING_SCORE, h, decide_eq_false_iff_not]
    norm_num

/-- C1 witness: the boundary payloads evaluated concretely. -/
theorem passed_iff_sim_accuracy_at_least_85_witness :
    isPassed (some scoresAt85) = true ∧ isPassed (some scoresJustBelow) = false :=
  ⟨(passed_iff_sim_accuracy_at_least_85 scoresAt85).2.1 rfl,
   (passed_iff_sim_accuracy_at_least_85 scoresJustBelow).2.2 rfl⟩

/-- C2: along any sequence of events that contains no restart, the
position pair (slide index, item index) never decreases in the
lexicographic order, and the explicit restart resets it to (0, 0). -/
theorem position_monotone_except_restart (s : SimState) (evs : List Event)
    (h : ∀ e ∈ evs, e ≠ Event.restart) :
    posLe (pos s) (pos (applyEvents evs s)) ∧ pos (step Event.restart s) = (0, 0) :=
  ⟨pos_applyEvents evs s h, rfl⟩

/-- C2 witness: a concrete click, timer firing and tick never move the
position backward, and restart resets it. -/
theorem position_monotone_except_restart_witness :
    posLe (pos baseState)
      (pos (applyEvents [Event.hotspotClick, Event.fireTimer, Event.tick] baseState)) ∧
    pos (step Event.restart baseState) = (0, 0) :=
  position_monotone_except_restart baseState
    [Event.hotspotClick, Event.fireTimer, Event.tick] (by decide)

/-- C3 counterexample: from a checkbox item, two clicks before the
0.8-second delay elapses followed by the two scheduled callbacks firing
move the sequence index from 0 to 2, whereas a single advance yields 1:
the second click is not ignored and the sequence advances twice. -/
theorem checkbox_double_click_advances_twice :
    (applyEvents [Event.hotspotClick, Event.hotspotClick, Event.fireTimer, Event.fireTimer]
        baseState).currentSequenceIndex = 2 ∧
    (moveToNextItem baseState).currentSequenceIndex = 1 := by
  decide

/-- C3 (amended): a first click on a current checkbox hotspot marks it
checked and schedules one auto-advance with an 800 ms delay without
raising the processing guard; a second click arriving before the delay
elapses is therefore not dropped: it schedules a second auto-advance,
so the two clicks advance the sequence twice. -/
theorem checkbox_second_click_not_ignored (s : SimState) (item : SequenceItem)
    (hitem : currentItem s = some item) (htype : item.type = "hotspot")
    (hkind : hotspotTypeOf item = "checkbox")
    (hstart : s.isStarted = true) (hproc : s.isProcessing = false)
    (hpause : s.isPaused = false) :
    handleHotspotClick s =
      { s with checkboxChecked := true,
               pendingTimers := s.pendingTimers ++ [TimerCallback.checkboxAdvance] } ∧
    scheduledDelayMs TimerCallback.checkboxAdvance = 800 ∧
    (handleHotspotClick s).isProcessing = s.isProcessing ∧
    handleHotspotClick (handleHotspotClick s) =
      { s with checkboxChecked := true,
               pendingTimers := s.pendingTimers ++
                 [TimerCallback.checkboxAdvance, TimerCallback.checkboxAdvance] } := by
  have key : ∀ t : SimState, currentItem t = some item → t.isStarted = true →
      t.isProcessing = false → t.isPaused = false →
      handleHotspotClick t =
        { t with checkboxChecked := true,
                 pendingTimers := t.pendingTimers ++ [TimerCallback.checkboxAdvance] } := by
    intro t ht hs hp hpa
    unfold handleHotspotClick
    simp only [ht]
    rw [if_neg (by simp [hs, hp, hpa, htype]), if_neg (by rw [hkind]; decide),
        if_neg (by rw [hkind]; decide), if_pos hkind]
  have h1 := key s hitem hstart hproc hpause
  refine ⟨h1, rfl, by rw [h1], ?_⟩
  rw [h1]
  have h2 := key
    { s with checkboxChecked := true,
             pendingTimers := s.pendingTimers ++ [TimerCallback.checkboxAdvance] }
    hitem hstart hproc hpause
  rw [h2]
  simp [List.append_assoc]

/-- C3 amended-claim witness: the double click on the concrete base
state schedules two checkbox advances. -/
theorem checkbox_second_click_not_ignored_witness :
    handleHotspotClick (handleHotspotClick baseState) =
      { baseState with
        checkboxChecked := true,
        pendingTimers := [TimerCallback.checkboxAdvance, TimerCallback.checkboxAdvance] } :=
  (checkbox_second_click_not_ignored baseState checkboxItem (by decide)
    rfl rfl rfl rfl rfl).2.2.2

/-- C4: over any restart-free trace the elapsed-seconds counter grows
by exactly the number of ticks that land while the interval is alive,
the session is started and it is not paused; a single tick increments
it exactly when that condition holds, and a tick during a pause leaves
it frozen. -/
theorem elapsed_seconds_count_playing_ticks (s : SimState) (evs : List Event)
    (h : ∀ e ∈ evs, e ≠ Event.restart) :
    (applyEvents evs s).elapsedTime = s.elapsedTime + playingTicks evs s ∧
    ((step Event.tick s).elapsedTime = s.elapsedTime + 1 ↔ tickCounts s = true) ∧
    (s.isPaused = true → (step Event.tick s).elapsedTime = s.elapsedTime) := by
  refine ⟨elapsed_applyEvents evs s h, ?_, ?_⟩
  · constructor
    · intro hinc
      rcases htc : tickCounts s with _ | _
      · exfalso
        have he := elapsed_tickFn s
        rw [htc] at he
        simp at he
        have hinc2 : (tickFn s).elapsedTime = s.elapsedTime + 1 := hinc
        omega
      · rfl
    · intro hc
      have he := elapsed_tickFn s
      rw [hc] at he
      simpa using he
  · intro hp
    have htc : tickCounts s = false := by simp [tickCounts, hp]
    have he := elapsed_tickFn s
    rw [htc] at he
    simpa using he

/-- C4 witness: a tick, a pause, a tick while paused, a resume and a
final tick yield two counted seconds on the concrete base state. -/
theorem elapsed_seconds_count_playing_ticks_witness :
    (applyEvents [Event.tick, Event.togglePause, Event.tick, Event.togglePause, Event.tick]
        baseState).elapsedTime
      = baseState.elapsedTime +
        playingTicks [Event.tick, Event.togglePause, Event.tick, Event.togglePause, Event.tick]
          baseState ∧
    playingTicks [Event.tick, Event.togglePause, Event.tick, Event.togglePause, Event.tick]
        baseState = 2 :=
  ⟨(elapsed_seconds_count_playing_ticks baseState
      [Event.tick, Event.togglePause, Event.tick, Event.togglePause, Event.tick]
      (by decide)).1,
   by decide⟩

/-- C5: on entering a hotspot item whose settings carry a positive
timeout, the engine schedules an automatic advance with delay
timeout * 1000 ms — except when the (defaulted) hotspot kind is button,
dropdown or checkbox, in which case no timer is scheduled and the
engine waits for an explicit interaction, regardless of the configured
timeout. -/
theorem hotspot_timeout_policy (s : SimState) (item : SequenceItem) (t : ℚ)
    (hitem : currentItem s = some item) (htype : item.type = "hotspot")
    (htimeout : item.timeoutDuration = some t) (htpos : 0 < t)
    (hproc : s.isProcessing = false) (himg : s.imageLoaded = true)
    (hpause : s.isPaused = false) (hstart : s.isStarted = true) :
    (hotspotTypeOf item ≠ "button" → hotspotTypeOf item ≠ "dropdown" →
        hotspotTypeOf item ≠ "checkbox" →
      processItem s =
        { s with isProcessing := true, highlightHotspot := true,
                 pendingTimers := s.pendingTimers ++
                   [TimerCallback.hotspotTimeoutAdvance (t * 1000)] }) ∧
    ((hotspotTypeOf item = "button" ∨ hotspotTypeOf item = "dropdown" ∨
        hotspotTypeOf item = "checkbox") →
      processItem s = { s with isProcessing := false, highlightHotspot := true }) := by
  have hred : processItem s =
      if 0 < t ∧ hotspotTypeOf item ≠ "button" ∧ hotspotTypeOf item ≠ "dropdown" ∧
         hotspotTypeOf item ≠ "checkbox" then
        { s with isProcessing := true, highlightHotspot := true,
                 pendingTimers := s.pendingTimers ++
                   [TimerCallback.hotspotTimeoutAdvance (t * 1000)] }
      else { s with isProcessing := false, highlightHotspot := true } := by
    unfold processItem
    simp only [hitem]
    rw [if_neg (by simp [hproc, himg, hpause, hstart]),
        if_neg (by rw [htype]; decide), if_pos htype]
    simp only [htimeout]
  constructor
  · intro hb hd hc
    rw [hred, if_pos ⟨htpos, hb, hd, hc⟩]
  · intro hdisj
    rw [hred, if_neg]
    rintro ⟨-, hb, hd, hc⟩
    rcases hdisj with hk | hk | hk
    · exact hb hk
    · exact hd hk
    · exact hc hk

/-- C5 witness: a textfield hotspot with a 5-second timeout schedules
the 5000 ms auto-advance, while a button hotspot with the same timeout
schedules nothing and waits. -/
theorem hotspot_timeout_policy_witness :
    processItem textfieldTimeoutState =
      { textfieldTimeoutState with
        isProcessing := true, highlightHotspot := true,
        pendingTimers := [TimerCallback.hotspotTimeoutAdvance (5 * 1000)] } ∧
    processItem buttonTimeoutState =
      { buttonTimeoutState with isProcessing := false, highlightHotspot := true } := by
  constructor
  · exact (hotspot_timeout_policy textfieldTimeoutState textfieldTimeoutItem 5 (by decide)
      rfl rfl (by norm_num) rfl rfl rfl rfl).1 (by decide) (by decide) (by decide)
  · exact (hotspot_timeout_policy buttonTimeoutState buttonTimeoutItem 5 (by decide)
      rfl rfl (by norm_num) rfl rfl rfl rfl).2 (Or.inl rfl)

/-- C6: a current customer message is displayed and schedules a single
800 ms auto-advance with no trainee action; a current trainee message
puts the engine into the awaiting-input state; submitting a non-empty
(after trimming) input advances exactly once while empty or
whitespace-only input is dropped, and the awaiting-input state persists
under ticks, pause toggles, clicks, input edits and end-call starts. -/
theorem message_item_flow (s : SimState) (item : SequenceItem)
    (hitem : currentItem s = some item) (htype : item.type = "message")
    (hproc : s.isProcessing = false) (himg : s.imageLoaded = true)
    (hpause : s.isPaused = false) (hstart : s.isStarted = true) :
    ((item.role = some "Customer" ∨ item.role = some "customer") →
      processItem s =
        { s with isProcessing := true,
                 currentMessage := some { role := "customer", text := item.text.getD "" },
                 pendingTimers := s.pendingTimers ++ [TimerCallback.customerMsgAdvance] } ∧
      scheduledDelayMs TimerCallback.customerMsgAdvance = 800 ∧
      (∀ u : SimState,
        pos (fireCallback TimerCallback.customerMsgAdvance u) = pos (moveToNextItem u))) ∧
    ((item.role ≠ some "Customer" ∧ item.role ≠ some "customer") →
      processItem s =
        { s with isProcessing := false, waitingForUserInput := true,
                 expectedTraineeResponse := item.text.getD "" }) ∧
    (s.waitingForUserInput = true → trimString s.userInput ≠ "" →
      handleSubmitMessage s =
        { s with currentMessage := some { role := "trainee", text := s.userInput },
                 userInput := "", waitingForUserInput := false, expectedTraineeResponse := "",
                 pendingTimers := s.pendingTimers ++ [TimerCallback.submitAdvance] }) ∧
    (trimString s.userInput = "" → handleSubmitMessage s = s) ∧
    (s.waitingForUserInput = true →
      ∀ e : Event, (e = Event.tick ∨ e = Event.togglePause ∨ e = Event.hotspotClick ∨
          (∃ u, e = Event.userInputChanged u) ∨ e = Event.endChatStart) →
        (step e s).waitingForUserInput = true) := by
  have hmsg : processItem s =
      if item.role = some "Customer" ∨ item.role = some "customer" then
        { s with isProcessing := true,
                 currentMessage := some { role := "customer", text := item.text.getD "" },
                 pendingTimers := s.pendingTimers ++ [TimerCallback.customerMsgAdvance] }
      else
        { s with isProcessing := false, waitingForUserInput := true,
                 expectedTraineeResponse := item.text.getD "" } := by
    unfold processItem
    simp only [hitem]
    rw [if_neg (by simp [hproc, himg, hpause, hstart]), if_pos htype]
  have hclick : handleHotspotClick s = s := by
    unfold handleHotspotClick
    simp only [hitem]
    rw [if_pos (Or.inr (Or.inl (by rw [htype]; decide)))]
  refine ⟨?_, ?_, ?_, ?_, ?_⟩
  · intro hrole
    exact ⟨by rw [hmsg, if_pos hrole], rfl, fun u => rfl⟩
  · intro hrole
    rw [hmsg, if_neg (fun hor => hor.elim hrole.1 hrole.2)]
  · intro hw hne
    unfold handleSubmitMessage
    rw [if_neg]
    rintro (hcase | hcase)
    · exact hne hcase
    · rw [hw] at hcase
      exact Bool.noConfusion hcase
  · intro he
    unfold handleSubmitMessage
    rw [if_pos (Or.inl he)]
  · intro hw e hcase
    rcases hcase with hcase | hcase | hcase | ⟨u, hcase⟩ | hcase <;> subst hcase
    · show (tickFn s).waitingForUserInput = true
      unfold tickFn
      split
      · exact hw
      · exact hw
    · exact hw
    · show (handleHotspotClick s).waitingForUserInput = true
      rw [hclick]
      exact hw
    · exact hw
    · show (endChatStartFn s).1.waitingForUserInput = true
      unfold endChatStartFn
      repeat' split
      all_goals exact hw

/-- C6 witness: the concrete customer message schedules its 800 ms
auto-advance and the concrete awaiting trainee message advances on a
non-empty submit. -/
theorem message_item_flow_witness :
    processItem customerMsgState =
      { customerMsgState with
        isProcessing := true,
        currentMessage := some { role := "customer", text := "Hi" },
        pendingTimers := [TimerCallback.customerMsgAdvance] } ∧
    (handleSubmitMessage traineeWaitingState).waitingForUserInput = false ∧
    (handleSubmitMessage traineeWaitingState).pendingTimers = [TimerCallback.submitAdvance] := by
  have hc := ((message_item_flow customerMsgState customerMsgItem (by decide)
    rfl rfl rfl rfl rfl).1 (Or.inl rfl)).1
  have ht := (message_item_flow traineeWaitingState traineeMsgItem (by decide)
    rfl rfl rfl rfl rfl).2.2.1 rfl (by decide)
  refine ⟨hc, ?_, ?_⟩
  · rw [ht]
  · rw [ht]
    rfl

/-- C7: a click on a current dropdown hotspot only toggles its
open/closed display state and never moves the position; a selection
records the chosen option and schedules an advance exactly when
settings.advanceOnSelect is true — with it false or absent the state
changes only in the recorded value and open flag, so the position is
unchanged. -/
theorem dropdown_click_toggles_select_advances (s : SimState) (item : SequenceItem)
    (opt : String)
    (hitem : currentItem s = some item) (htype : item.type = "hotspot")
    (hkind : hotspotTypeOf item = "dropdown")
    (hstart : s.isStarted = true) (hproc : s.isProcessing = false)
    (hpause : s.isPaused = false) :
    handleHotspotClick s = { s with dropdownOpen := !s.dropdownOpen } ∧
    pos (handleHotspotClick s) = pos s ∧
    (handleDropdownSelect opt s).dropdownValue = opt ∧
    ((handleDropdownSelect opt s).pendingTimers ≠ s.pendingTimers ↔
      item.advanceOnSelect = some true) ∧
    (item.advanceOnSelect ≠ some true →
      handleDropdownSelect opt s = { s with dropdownValue := opt, dropdownOpen := false }) ∧
    (item.advanceOnSelect = some true →
      handleDropdownSelect opt s =
        { s with dropdownValue := opt, dropdownOpen := false,
                 pendingTimers := s.pendingTimers ++ [TimerCallback.dropdownAdvance] }) := by
  have hclick : handleHotspotClick s = { s with dropdownOpen := !s.dropdownOpen } := by
    unfold handleHotspotClick
    simp only [hitem]
    rw [if_neg (by simp [hstart, hproc, hpause, htype]),
        if_neg (by rw [hkind]; decide), if_pos hkind]
  have hgetd : (item.advanceOnSelect.getD false = true) ↔ item.advanceOnSelect = some true := by
    cases item.advanceOnSelect with
    | none => simp
    | some b => cases b <;> simp
  have hsel : handleDropdownSelect opt s =
      if item.advanceOnSelect.getD false = true then
        { s with dropdownValue := opt, dropdownOpen := false,
                 pendingTimers := s.pendingTimers ++ [TimerCallback.dropdownAdvance] }
      else { s with dropdownValue := opt, dropdownOpen := false } := by
    unfold handleDropdownSelect
    simp only [hitem]
  refine ⟨hclick, by rw [hclick]; rfl, ?_, ?_, ?_, ?_⟩
  · rw [hsel]
    split <;> rfl
  · rw [hsel]
    by_cases hb : item.advanceOnSelect = some true
    · rw [if_pos (hgetd.mpr hb)]
      refine ⟨fun _ => hb, fun _ hlist => ?_⟩
      have hlen := congrArg List.length hlist
      simp at hlen
    · rw [if_neg (fun hh => hb (hgetd.mp hh))]
      simp [hb]
  · intro hb
    rw [hsel, if_neg (fun hh => hb (hgetd.mp hh))]
  · intro hb
    rw [hsel, if_pos (hgetd.mpr hb)]

/-- C7 witness: the concrete dropdown with advanceOnSelect disabled
records the selection without scheduling an advance, and the one with
it enabled schedules the advance. -/
theorem dropdown_click_toggles_select_advances_witness :
    handleDropdownSelect "A" dropdownNoAdvState =
      { dropdownNoAdvState with dropdownValue := "A", dropdownOpen := false } ∧
    (handleDropdownSelect "A" dropdownAdvState).pendingTimers =
      [TimerCallback.dropdownAdvance] := by
  constructor
  · exact (dropdown_click_toggles_select_advances dropdownNoAdvState dropdownNoAdvItem "A"
      (by decide) rfl rfl rfl rfl rfl).2.2.2.2.1 (by decide)
  · have h := (dropdown_click_toggles_select_advances dropdownAdvState dropdownAdvItem "A"
      (by decide) rfl rfl rfl rfl rfl).2.2.2.2.2 rfl
    rw [h]
    rfl

/-- C8: from a state with no end call outstanding, a known user and a
recorded progress id, the first end call issues the gateway invocation;
a second call made while the first is still outstanding issues no
invocation and leaves the state untouched — exactly one gateway end
invocation and one stored result. -/
theorem end_chat_idempotent (s : SimState)
    (h1 : s.isEndingChat = false) (h2 : s.userId ≠ "")
    (h3 : s.simulationProgressId.isSome = true) :
    (endChatStartFn s).2 = true ∧
    (endChatStartFn (endChatStartFn s).1).2 = false ∧
    (endChatStartFn (endChatStartFn s).1).1 = (endChatStartFn s).1 := by
  obtain ⟨pid, hpid⟩ := Option.isSome_iff_exists.mp h3
  have hfst : endChatStartFn s =
      ({ s with isStarted := false, timerRunning := false, isEndingChat := true }, true) := by
    unfold endChatStartFn
    rw [if_neg (by simp [h1]), if_neg h2, hpid]
  refine ⟨by rw [hfst], ?_, ?_⟩
  · rw [hfst]
    unfold endChatStartFn
    rw [if_pos rfl]
  · rw [hfst]
    unfold endChatStartFn
    rw [if_pos rfl]

/-- C8 witness: the double end call on the concrete base state. -/
theorem end_chat_idempotent_witness :
    (endChatStartFn baseState).2 = true ∧
    (endChatStartFn (endChatStartFn baseState).1).2 = false ∧
    (endChatStartFn (endChatStartFn baseState).1).1 = (endChatStartFn baseState).1 :=
  end_chat_idempotent baseState rfl (by decide) rfl

/-- C9 counterexample: from the playing base state (started, timer
alive), a failed gateway end call leaves the started flag cleared and
the timer stopped, so the engine state does not remain as it was before
the call. -/
theorem end_failure_changes_state :
    baseState.isStarted = true ∧ baseState.timerRunning = true ∧
    (endChatResolveFn none (endChatStartFn baseState).1).isStarted = false ∧
    (endChatResolveFn none (endChatStartFn baseState).1).timerRunning = false ∧
    endChatResolveFn none (endChatStartFn baseState).1 ≠ baseState := by
  decide

/-- C9 (amended): when the gateway end call fails, the engine stores no
scores and shows no completion screen (it is not forced to Completed)
and resets the ending guard so the call can be retried; but the clock
timer was already stopped and the started flag cleared before the call,
so the state does not remain Playing or Paused as it was before. -/
theorem end_failure_aftermath (s : SimState)
    (h1 : s.isEndingChat = false) (h2 : s.userId ≠ "")
    (h3 : s.simulationProgressId.isSome = true) :
    endChatResolveFn none (endChatStartFn s).1 =
      { s with isStarted := false, timerRunning := false, isEndingChat := false } ∧
    (endChatResolveFn none (endChatStartFn s).1).scores = s.scores ∧
    (endChatResolveFn none (endChatStartFn s).1).showCompletionScreen =
      s.showCompletionScreen ∧
    (endChatResolveFn none (endChatStartFn s).1).isEndingChat = false := by
  obtain ⟨pid, hpid⟩ := Option.isSome_iff_exists.mp h3
  have hfst : (endChatStartFn s).1 =
      { s with isStarted := false, timerRunning := false, isEndingChat := true } := by
    unfold endChatStartFn
    rw [if_neg (by simp [h1]), if_neg h2, hpid]
  refine ⟨by rw [hfst]; rfl, by rw [hfst]; rfl, by rw [hfst]; rfl, by rw [hfst]; rfl⟩

/-- C9 amended-claim witness: the failed end call on the concrete base
state. -/
theorem end_failure_aftermath_witness :
    endChatResolveFn none (endChatStartFn baseState).1 =
      { baseState with isStarted := false, timerRunning := false, isEndingChat := false } ∧
    (endChatResolveFn none (endChatStartFn baseState).1).scores = baseState.scores ∧
    (endChatResolveFn none (endChatStartFn baseState).1).showCompletionScreen =
      baseState.showCompletionScreen ∧
    (endChatResolveFn none (endChatStartFn baseState).1).isEndingChat = false :=
  end_failure_aftermath baseState rfl (by decide) rfl

/-- C10: invoking the end flow with no recorded session-progress id
makes no gateway invocation and shows no completion result, yet the
resulting state already has the clock timer stopped and the started
flag cleared (the teardown precedes the missing-id check), with the
completion screen and scores untouched — a silent termination with no
score. -/
theorem end_without_progress_id (s : SimState)
    (h1 : s.isEndingChat = false) (h2 : s.userId ≠ "")
    (h3 : s.simulationProgressId = none) :
    (endChatStartFn s).2 = false ∧
    (endChatStartFn s).1 =
      { s with isStarted := false, timerRunning := false, isEndingChat := false } ∧
    (endChatStartFn s).1.showCompletionScreen = s.showCompletionScreen ∧
    (endChatStartFn s).1.scores = s.scores := by
  have hfst : endChatStartFn s =
      ({ s with isStarted := false, timerRunning := false, isEndingChat := false }, false) := by
    unfold endChatStartFn
    rw [if_neg (by simp [h1]), if_neg h2, h3]
  refine ⟨by rw [hfst], by rw [hfst], by rw [hfst], by rw [hfst]⟩

/-- C10 witness: the end flow on the concrete state that never obtained
a progress id. -/
theorem end_without_progress_id_witness :
    (endChatStartFn noProgressState).2 = false ∧
    (endChatStartFn noProgressState).1 =
      { noProgressState with isStarted := false, timerRunning := false, isEndingChat := false } ∧
    (endChatStartFn noProgressState).1.showCompletionScreen =
      noProgressState.showCompletionScreen ∧
    (endChatStartFn noProgressState).1.scores = noProgressState.scores :=
  end_without_progress_id noProgressState rfl (by decide) rfl
